import Mathlib

/-!
Verification of the MealLedger subsystem (`RegisterMealTool` in
`src/tools/RegisterMealTool.ts`): a shallow embedding of the five CRUD
operations (`create`, `read`, `update`, `delete`, `daily_summary`) over a
MongoDB collection of meal documents, together with theorems settling the
specification claims.

Modelling conventions:
* Timestamps are `Int` milliseconds since the Unix epoch (the value stored
  inside a JS `Date`).  A JS `Date` value is `Option Int`, with `none`
  standing for an Invalid Date (`NaN` time value) or a missing field; in a
  MongoDB range query an Invalid Date satisfies no comparison, which the
  embedding mirrors.
* JS date parsing (`new Date(string)`) is a parameter
  `parse : String → Option Int` of the operations; `parse s = none` models a
  string rejected by `Date.parse` (Invalid Date).
* The local timezone is a fixed offset `tz` (ms ahead of UTC): a `Date`
  holding UTC instant `t` shows local wall-clock time `t + tz`.
  `d.setHours(0,0,0,0)` therefore yields instant `t - (t + tz) % 86400000`,
  and `setDate(getDate()+1)` on that midnight adds exactly one day.
* MongoDB `ObjectId`s are `Nat`; the client-supplied `mealId` string is
  modelled already converted (`Input.mealId : Option Nat`); `new
  ObjectId(undefined)` generates a fresh id, modelled by `Store.nextId`.
* Numbers are idealised as `Int` (exact arithmetic); document fields that
  the runtime may leave `undefined` are `Option`-valued.
* A thrown JS `Error` is `Except.error <message>`; each operation returns
  the post-state of the collection alongside, since a throw does not undo
  a database write that already happened.
-/

namespace RegisterMeal

/-- One day in milliseconds (24 * 60 * 60 * 1000). -/
def dayMs : Int := 86400000

/-- The runtime view of the `mealData` input object: every property may be
absent at runtime (the zod schema requires `mealType`, `description`,
`calories` only when validation is applied; see `schemaValid`). -/
structure MealData where
  mealType : Option String
  description : Option String
  calories : Option Int
  carbs : Option Int
  protein : Option Int
  fat : Option Int
  date : Option String
deriving DecidableEq

/-- A document of the `user_meals` collection (`MealDocument` in the
source).  `_id` is assigned by the store at insertion.  `userId` is
`Option` because `execute` forwards `userId!` unchecked, so `undefined`
can reach the insert. -/
structure MealDocument where
  _id : Nat
  userId : Option String
  mealType : Option String
  description : Option String
  calories : Option Int
  carbs : Option Int
  protein : Option Int
  fat : Option Int
  date : Option Int
  createdAt : Int
  updatedAt : Int
deriving DecidableEq

/-- The `user_meals` collection plus the id generator of the store. -/
structure Store where
  docs : List MealDocument
  nextId : Nat
deriving DecidableEq

/-- The dispatch input (`RegisterMealInput`).  `operation` is kept as a raw
string so that the `default` arm of the switch is reachable, as it is at
the JS runtime. -/
structure Input where
  operation : String
  userId : Option String
  mealId : Option Nat
  mealData : Option MealData
deriving DecidableEq

/-- The zod schema of the tool: `operation` must be one of the five enum
values; `userId`, `mealId`, `mealData` are optional; when `mealData` is
present its `mealType`, `description` and `calories` are required. -/
def supportedOps : List String :=
  ["create", "read", "update", "delete", "daily_summary"]

def schemaValid (i : Input) : Bool :=
  (decide (i.operation ∈ supportedOps)) &&
  (match i.mealData with
   | none => true
   | some md => md.mealType.isSome && md.description.isSome && md.calories.isSome)

/-- Item of the meal list returned by `read` (includes the date). -/
structure MealView where
  id : Nat
  mealType : Option String
  description : Option String
  calories : Option Int
  carbs : Option Int
  protein : Option Int
  fat : Option Int
  date : Option Int
deriving DecidableEq

/-- Item of the meal list returned by `daily_summary` (no date). -/
structure SummaryMealView where
  id : Nat
  mealType : Option String
  description : Option String
  calories : Option Int
  carbs : Option Int
  protein : Option Int
  fat : Option Int
deriving DecidableEq

/-- The accumulator of `getDailySummary`'s reduce. -/
structure SummaryTotals where
  totalCalories : Int
  totalCarbs : Int
  totalProtein : Int
  totalFat : Int
  mealCount : Nat
deriving DecidableEq

/-- The operation-specific payload under the `data` key of the response
envelope. -/
inductive ResponseData where
  | created (message : String) (mealId : Nat) (meal : MealDocument)
  | readData (meals : List MealView) (totalMeals : Nat)
  | updated (message : String) (modifiedCount : Nat)
  | deleted (message : String) (deletedCount : Nat)
  | summary (date : Int) (s : SummaryTotals) (meals : List SummaryMealView)
  | errMsg (msg : String)
deriving DecidableEq

/-- The uniform `{ success, data }` response envelope. -/
structure Envelope where
  success : Bool
  data : ResponseData
deriving DecidableEq

/-- Effect of `d.setHours(0,0,0,0)` applied to the current instant `now` under fixed
offset `tz`: the UTC instant of local midnight of the current local day.
(`Int.emod` is non-negative here, matching the wall-clock remainder.) -/
def startOfToday (now tz : Int) : Int := now - (now + tz) % dayMs

/-- The BSON date range test `date: { $gte: lo, $lt: hi }`.  An Invalid
Date (`none`) satisfies no comparison. -/
def dateInRange (t : Option Int) (lo hi : Int) : Bool :=
  match t with
  | some v => lo ≤ v && v < hi
  | none => false

/-- Sort key used by `.sort({ date: 1 })` on documents that matched the
range filter (their date is always `some`). -/
def dateKey (d : MealDocument) : Int := d.date.getD 0

def mealLe (a b : MealDocument) : Bool := dateKey a ≤ dateKey b

/-- The filter `{ userId, date: { $gte: today, $lt: tomorrow } }` used by
both `readMeals` and `getDailySummary`. -/
def todayFilter (now tz : Int) (userId : Option String) (d : MealDocument) : Bool :=
  d.userId == userId &&
    dateInRange d.date (startOfToday now tz) (startOfToday now tz + dayMs)

/-- The `$set` document built by `updateMeal`: `updatedAt` always, the
other keys only when included (`some`). -/
structure UpdateData where
  updatedAt : Int
  mealType : Option String
  description : Option String
  calories : Option Int
  carbs : Option Int
  protein : Option Int
  fat : Option Int
deriving DecidableEq

/-- Apply a `$set` document to one stored document. -/
def applySet (u : UpdateData) (d : MealDocument) : MealDocument :=
  { d with
    updatedAt := u.updatedAt
    mealType := match u.mealType with | some v => some v | none => d.mealType
    description := match u.description with | some v => some v | none => d.description
    calories := match u.calories with | some v => some v | none => d.calories
    carbs := match u.carbs with | some v => some v | none => d.carbs
    protein := match u.protein with | some v => some v | none => d.protein
    fat := match u.fat with | some v => some v | none => d.fat }

/-- Embeds `collection.updateOne` with filter `_id = mid` and `$set: u` over the document list:
updates the first matching document.  Returns the new list, the
`matchedCount` and the `modifiedCount` (a document counts as modified only
if `$set` actually changed it). -/
def updateFirst (mid : Nat) (u : UpdateData) :
    List MealDocument → List MealDocument × Nat × Nat
  | [] => ([], 0, 0)
  | d :: rest =>
    if d._id = mid then
      (applySet u d :: rest, 1, if applySet u d = d then 0 else 1)
    else
      let r := updateFirst mid u rest
      (d :: r.1, r.2.1, r.2.2)

/-- Embeds `collection.deleteOne` with filter `_id = mid`: removes the first matching
document, returning the new list and the `deletedCount`. -/
def deleteFirst (mid : Nat) :
    List MealDocument → List MealDocument × Nat
  | [] => ([], 0)
  | d :: rest =>
    if d._id = mid then (rest, 1)
    else
      let r := deleteFirst mid rest
      (d :: r.1, r.2)

/-- Embeds `new ObjectId(mealId)`: a present id is used as is; `new
ObjectId(undefined)` generates a fresh id, modelled by `Store.nextId`. -/
def resolveId (st : Store) : Option Nat → Nat
  | some n => n
  | none => st.nextId

/-- Embeds `createMeal` (source lines 183–210).  Reading a property of an
`undefined` `mealData` throws a TypeError.  `carbs || 0` coincides with
`getD 0` on integers (JS `0 || 0` is `0`).  The date: `mealData.date ?
new Date(mealData.date) : new Date()` — the truthy test means a present
*nonempty* string is parsed (possibly to Invalid Date), while an absent or
empty string falls back to the current time. -/
def createMeal (parse : String → Option Int) (now : Int) (st : Store)
    (userId : Option String) (mealData : Option MealData) :
    Except String Envelope × Store :=
  match mealData with
  | none => (.error "TypeError: mealData is undefined", st)
  | some md =>
    let meal : MealDocument :=
      { _id := st.nextId
        userId := userId
        mealType := md.mealType
        description := md.description
        calories := md.calories
        carbs := some (md.carbs.getD 0)
        protein := some (md.protein.getD 0)
        fat := some (md.fat.getD 0)
        date := match md.date with
                | some s => if s = "" then some now else parse s
                | none => some now
        createdAt := now
        updatedAt := now }
    (.ok { success := true
           data := .created "Refeição registrada com sucesso" st.nextId meal },
     { docs := st.docs ++ [meal], nextId := st.nextId + 1 })

def toMealView (d : MealDocument) : MealView :=
  { id := d._id, mealType := d.mealType, description := d.description
    calories := d.calories, carbs := d.carbs, protein := d.protein
    fat := d.fat, date := d.date }

/-- Embeds `readMeals` (source lines 216–249): today's meals of a user, filtered
to `[local midnight, local midnight + 24h)` and sorted ascending by
date. -/
def readMeals (now tz : Int) (st : Store) (userId : Option String) :
    Except String Envelope × Store :=
  let meals := (st.docs.filter (todayFilter now tz userId)).mergeSort mealLe
  (.ok { success := true
         data := .readData (meals.map toMealView) meals.length }, st)

/-- The `$set` document of `updateMeal` (source lines 256–265):
`mealType`/`description` are included under a *truthy* test (an empty
string is skipped), the numeric fields under `!== undefined`. -/
def mkUpdateData (now : Int) (md : MealData) : UpdateData :=
  { updatedAt := now
    mealType := match md.mealType with
                | some s => if s = "" then none else some s
                | none => none
    description := match md.description with
                   | some s => if s = "" then none else some s
                   | none => none
    calories := md.calories
    carbs := md.carbs
    protein := md.protein
    fat := md.fat }

/-- Embeds `updateMeal` (source lines 255–283).  The `updateOne` runs before the
`matchedCount` check, so the (unchanged) post-state is kept even when the
not-found error is thrown. -/
def updateMeal (now : Int) (st : Store) (mealId : Option Nat)
    (mealData : Option MealData) : Except String Envelope × Store :=
  match mealData with
  | none => (.error "TypeError: mealData is undefined", st)
  | some md =>
    let r := updateFirst (resolveId st mealId) (mkUpdateData now md) st.docs
    let st' : Store := { st with docs := r.1 }
    if r.2.1 = 0 then
      (.error "Refeição não encontrada", st')
    else
      (.ok { success := true
             data := .updated "Refeição atualizada com sucesso" r.2.2 }, st')

/-- Embeds `deleteMeal` (source lines 289–303). -/
def deleteMeal (st : Store) (mealId : Option Nat) :
    Except String Envelope × Store :=
  let r := deleteFirst (resolveId st mealId) st.docs
  let st' : Store := { st with docs := r.1 }
  if r.2 = 0 then
    (.error "Refeição não encontrada", st')
  else
    (.ok { success := true
           data := .deleted "Refeição excluída com sucesso" r.2 }, st')

def toSummaryMealView (d : MealDocument) : SummaryMealView :=
  { id := d._id, mealType := d.mealType, description := d.description
    calories := d.calories, carbs := d.carbs, protein := d.protein
    fat := d.fat }

/-- One step of `getDailySummary`'s reduce; `x || 0` coincides with
`getD 0` on integer-valued options. -/
def addMeal (acc : SummaryTotals) (d : MealDocument) : SummaryTotals :=
  { totalCalories := acc.totalCalories + d.calories.getD 0
    totalCarbs := acc.totalCarbs + d.carbs.getD 0
    totalProtein := acc.totalProtein + d.protein.getD 0
    totalFat := acc.totalFat + d.fat.getD 0
    mealCount := acc.mealCount + 1 }

def zeroTotals : SummaryTotals :=
  { totalCalories := 0, totalCarbs := 0, totalProtein := 0, totalFat := 0
    mealCount := 0 }

/-- The value `today.toISOString().split('T')[0]` represented by the UTC calendar
day number of the instant (days since 1970-01-01, floor division): the
ISO string before the `T` is determined by exactly this number. -/
def utcDayIndex (t : Int) : Int := t / dayMs

/-- Embeds `getDailySummary` (source lines 309–358): same day filter as
`readMeals` (no sort), a reduce for the totals, and the date label taken
from the UTC rendering of the local-midnight instant. -/
def getDailySummary (now tz : Int) (st : Store) (userId : Option String) :
    Except String Envelope × Store :=
  let meals := st.docs.filter (todayFilter now tz userId)
  let summary := meals.foldl addMeal zeroTotals
  (.ok { success := true
         data := .summary (utcDayIndex (startOfToday now tz)) summary
                  (meals.map toSummaryMealView) }, st)

/-- Embeds `execute` (source lines 141–177): the dispatch switch.  There is a
`finally` (closing the client) but *no catch*: a throw inside a handler
leaves `execute` as `Except.error`.  The `default` arm returns the only
`success := false` envelope. -/
def execute (parse : String → Option Int) (now tz : Int) (st : Store)
    (input : Input) : Except String Envelope × Store :=
  match input.operation with
  | "create" => createMeal parse now st input.userId input.mealData
  | "read" => readMeals now tz st input.userId
  | "update" => updateMeal now st input.mealId input.mealData
  | "delete" => deleteMeal st input.mealId
  | "daily_summary" => getDailySummary now tz st input.userId
  | _ => (.ok { success := false, data := .errMsg "Operação não suportada" }, st)

/-! ### Helper lemmas about the store primitives -/

theorem updateFirst_of_no_match (mid : Nat) (u : UpdateData)
    (l : List MealDocument) (h : ∀ d ∈ l, d._id ≠ mid) :
    updateFirst mid u l = (l, 0, 0) := by
  induction l with
  | nil => rfl
  | cons d rest ih =>
    have hd : ¬ d._id = mid := h d (by simp)
    simp only [updateFirst, if_neg hd, ih (fun e he => h e (by simp [he]))]

theorem updateFirst_split (mid : Nat) (u : UpdateData)
    (pre post : List MealDocument) (d : MealDocument)
    (hpre : ∀ e ∈ pre, e._id ≠ mid) (hd : d._id = mid) :
    updateFirst mid u (pre ++ d :: post)
      = (pre ++ applySet u d :: post, 1, if applySet u d = d then 0 else 1) := by
  induction pre with
  | nil => simp [updateFirst, hd]
  | cons e pre ih =>
    have he : ¬ e._id = mid := hpre e (by simp)
    simp only [List.cons_append, updateFirst, if_neg he, List.append_eq,
      ih (fun x hx => hpre x (by simp [hx]))]

theorem updateFirst_modified_le (mid : Nat) (u : UpdateData)
    (l : List MealDocument) : (updateFirst mid u l).2.2 ≤ 1 := by
  induction l with
  | nil => simp [updateFirst]
  | cons d rest ih =>
    by_cases hd : d._id = mid
    · simp only [updateFirst, if_pos hd]
      split <;> simp
    · simpa only [updateFirst, if_neg hd] using ih

theorem updateFirst_matched_of_mem (mid : Nat) (u : UpdateData)
    (l : List MealDocument) (h : ∃ d ∈ l, d._id = mid) :
    (updateFirst mid u l).2.1 = 1 := by
  induction l with
  | nil => simp at h
  | cons d rest ih =>
    by_cases hd : d._id = mid
    · simp [updateFirst, if_pos hd]
    · have : ∃ e ∈ rest, e._id = mid := by
        obtain ⟨e, he, hid⟩ := h
        rcases List.mem_cons.mp he with rfl | hmem
        · exact absurd hid hd
        · exact ⟨e, hmem, hid⟩
      simpa only [updateFirst, if_neg hd] using ih this

theorem deleteFirst_of_no_match (mid : Nat)
    (l : List MealDocument) (h : ∀ d ∈ l, d._id ≠ mid) :
    deleteFirst mid l = (l, 0) := by
  induction l with
  | nil => rfl
  | cons d rest ih =>
    have hd : ¬ d._id = mid := h d (by simp)
    simp only [deleteFirst, if_neg hd, ih (fun e he => h e (by simp [he]))]

theorem deleteFirst_deleted_of_mem (mid : Nat)
    (l : List MealDocument) (h : ∃ d ∈ l, d._id = mid) :
    (deleteFirst mid l).2 = 1 := by
  induction l with
  | nil => simp at h
  | cons d rest ih =>
    by_cases hd : d._id = mid
    · simp [deleteFirst, if_pos hd]
    · have : ∃ e ∈ rest, e._id = mid := by
        obtain ⟨e, he, hid⟩ := h
        rcases List.mem_cons.mp he with rfl | hmem
        · exact absurd hid hd
        · exact ⟨e, hmem, hid⟩
      simpa only [deleteFirst, if_neg hd] using ih this

/-! ### Claims about `update` and `delete` -/

/-- Fixture document used by concrete instances below. -/
def docA : MealDocument :=
  { _id := 1, userId := some "u1", mealType := some "lunch"
    description := some "old description", calories := some 100
    carbs := some 10, protein := some 5, fat := some 2
    date := some 0, createdAt := 0, updatedAt := 0 }

/-- C2: the claim says a field explicitly provided with a falsy-but-valid
value is still written, for every one of `mealType`, `description`,
`calories`, `carbs`, `protein`, `fat`.  The code tests `mealType` and
`description` for *truthiness*, so an explicit empty string is silently
dropped, while `calories: 0` (tested with `!== undefined`) is written:
updating `docA` with `mealType: ""`, `description: ""`, `calories: 0`
writes only `calories` (and `updatedAt`). -/
theorem claim2_falsy_update_dropped :
    (updateMeal 50 ⟨[docA], 2⟩ (some 1)
        (some ⟨some "", some "", some 0, none, none, none, none⟩)).2.docs
      = [{ docA with calories := some 0, updatedAt := 50 }] := by decide

/-- C5: `update` on a `mealId` matching no stored record throws the
not-found error and leaves the store exactly as it was, and `delete`
likewise; on a `mealId` that matches some record, `update` returns a
`modifiedCount` that is 0 or 1 and `delete` returns a `deletedCount` that
is 0 or 1. -/
theorem claim5_not_found_and_counts (now : Int) (st : Store) (mid : Nat)
    (md : MealData) :
    ((∀ d ∈ st.docs, d._id ≠ mid) →
        updateMeal now st (some mid) (some md) = (.error "Refeição não encontrada", st)
      ∧ deleteMeal st (some mid) = (.error "Refeição não encontrada", st))
  ∧ ((∃ d ∈ st.docs, d._id = mid) →
        (∃ n ≤ 1, ∃ st', updateMeal now st (some mid) (some md)
          = (.ok { success := true
                   data := .updated "Refeição atualizada com sucesso" n }, st'))
      ∧ (∃ n ≤ 1, ∃ st', deleteMeal st (some mid)
          = (.ok { success := true
                   data := .deleted "Refeição excluída com sucesso" n }, st'))) := by
  constructor
  · intro h
    constructor
    · simp [updateMeal, resolveId, updateFirst_of_no_match _ _ _ h]
    · simp [deleteMeal, resolveId, deleteFirst_of_no_match _ _ h]
  · intro h
    constructor
    · refine ⟨(updateFirst mid (mkUpdateData now md) st.docs).2.2,
        updateFirst_modified_le _ _ _,
        { st with docs := (updateFirst mid (mkUpdateData now md) st.docs).1 }, ?_⟩
      simp [updateMeal, resolveId, updateFirst_matched_of_mem _ _ _ h]
    · refine ⟨(deleteFirst mid st.docs).2, ?_,
        { st with docs := (deleteFirst mid st.docs).1 }, ?_⟩
      · have := deleteFirst_deleted_of_mem mid st.docs h
        omega
      · simp [deleteMeal, resolveId, deleteFirst_deleted_of_mem _ _ h]

theorem claim5_witness :
    (updateMeal 0 ⟨[], 0⟩ (some 7)
        (some ⟨none, none, none, none, none, none, none⟩)
      = (.error "Refeição não encontrada", ⟨[], 0⟩))
  ∧ (∃ n ≤ 1, ∃ st', deleteMeal ⟨[docA], 2⟩ (some 1)
      = (.ok { success := true
               data := .deleted "Refeição excluída com sucesso" n }, st')) :=
  ⟨((claim5_not_found_and_counts 0 ⟨[], 0⟩ 7
      ⟨none, none, none, none, none, none, none⟩).1 (by simp)).1,
   ((claim5_not_found_and_counts 0 ⟨[docA], 2⟩ 1
      ⟨none, none, none, none, none, none, none⟩).2 ⟨docA, by simp, rfl⟩).2⟩

/-- C6: when the update targets the first matching record `d`, the fields
absent from the request keep their prior values, `updatedAt` is set to the
current time even when no other field is supplied, every other record is
left untouched, and (given the clock did not run backwards since creation)
`updatedAt ≥ createdAt` holds afterwards. -/
theorem claim6_update_sparse_frame (now : Int) (st : Store) (mid : Nat)
    (md : MealData) (pre post : List MealDocument) (d : MealDocument)
    (hsplit : st.docs = pre ++ d :: post)
    (hpre : ∀ e ∈ pre, e._id ≠ mid) (hd : d._id = mid) :
    ∃ d' n, updateMeal now st (some mid) (some md)
        = (.ok { success := true
                 data := .updated "Refeição atualizada com sucesso" n },
           { st with docs := pre ++ d' :: post })
      ∧ d'.updatedAt = now
      ∧ (md.mealType = none → d'.mealType = d.mealType)
      ∧ (md.description = none → d'.description = d.description)
      ∧ (md.calories = none → d'.calories = d.calories)
      ∧ (md.carbs = none → d'.carbs = d.carbs)
      ∧ (md.protein = none → d'.protein = d.protein)
      ∧ (md.fat = none → d'.fat = d.fat)
      ∧ (d.createdAt ≤ now → d'.createdAt ≤ d'.updatedAt) := by
  refine ⟨applySet (mkUpdateData now md) d,
    if applySet (mkUpdateData now md) d = d then 0 else 1, ?_, ?_, ?_, ?_, ?_, ?_, ?_, ?_, ?_⟩
  · simp [updateMeal, resolveId, hsplit, updateFirst_split _ _ _ _ _ hpre hd]
  · rfl
  · intro h; simp [applySet, mkUpdateData, h]
  · intro h; simp [applySet, mkUpdateData, h]
  · intro h; simp [applySet, mkUpdateData, h]
  · intro h; simp [applySet, mkUpdateData, h]
  · intro h; simp [applySet, mkUpdateData, h]
  · intro h; simp [applySet, mkUpdateData, h]
  · intro h; simpa [applySet, mkUpdateData] using h

theorem claim6_witness :
    ∃ d' n, updateMeal 5 ⟨[docA], 2⟩ (some 1)
        (some ⟨none, none, none, none, none, none, none⟩)
        = (.ok { success := true
                 data := .updated "Refeição atualizada com sucesso" n },
           { docs := [] ++ d' :: [], nextId := 2 })
      ∧ d'.updatedAt = 5
      ∧ ((none : Option String) = none → d'.mealType = docA.mealType)
      ∧ ((none : Option String) = none → d'.description = docA.description)
      ∧ ((none : Option Int) = none → d'.calories = docA.calories)
      ∧ ((none : Option Int) = none → d'.carbs = docA.carbs)
      ∧ ((none : Option Int) = none → d'.protein = docA.protein)
      ∧ ((none : Option Int) = none → d'.fat = docA.fat)
      ∧ (docA.createdAt ≤ 5 → d'.createdAt ≤ d'.updatedAt) :=
  claim6_update_sparse_frame 5 ⟨[docA], 2⟩ 1
    ⟨none, none, none, none, none, none, none⟩ [] [] docA rfl (by simp) rfl

/-- C9: an update can only ever write `mealType`, `description`,
`calories`, `carbs`, `protein`, `fat` and `updatedAt`: the targeted
record's `_id`, `userId`, `date` (the consumption timestamp) and
`createdAt` are unchanged, even when the request's `mealData` explicitly
includes a `date` value, and all other records are untouched. -/
theorem claim9_update_immutable_fields (now : Int) (st : Store) (mid : Nat)
    (md : MealData) (pre post : List MealDocument) (d : MealDocument)
    (hsplit : st.docs = pre ++ d :: post)
    (hpre : ∀ e ∈ pre, e._id ≠ mid) (hd : d._id = mid) :
    ∃ d', (updateMeal now st (some mid) (some md)).2
        = { st with docs := pre ++ d' :: post }
      ∧ d'._id = d._id ∧ d'.userId = d.userId ∧ d'.date = d.date
      ∧ d'.createdAt = d.createdAt := by
  refine ⟨applySet (mkUpdateData now md) d, ?_, rfl, rfl, rfl, rfl⟩
  simp only [updateMeal, resolveId, hsplit, updateFirst_split _ _ _ _ _ hpre hd]
  split <;> rfl

theorem claim9_witness :
    ∃ d', (updateMeal 5 ⟨[docA], 2⟩ (some 1)
        (some ⟨none, none, none, none, none, none, some "2030-01-01T00:00:00.000Z"⟩)).2
        = { docs := [] ++ d' :: [], nextId := 2 }
      ∧ d'._id = docA._id ∧ d'.userId = docA.userId ∧ d'.date = docA.date
      ∧ d'.createdAt = docA.createdAt :=
  claim9_update_immutable_fields 5 ⟨[docA], 2⟩ 1
    ⟨none, none, none, none, none, none, some "2030-01-01T00:00:00.000Z"⟩
    [] [] docA rfl (by simp) rfl

/-! ### Claim about the dispatch layer (`execute`) -/

theorem createMeal_ok_success (parse : String → Option Int) (now : Int) (st : Store)
    (uid : Option String) (mdOpt : Option MealData) (env : Envelope) (st' : Store)
    (h : createMeal parse now st uid mdOpt = (.ok env, st')) : env.success = true := by
  cases mdOpt with
  | none => simp [createMeal] at h
  | some md =>
    simp only [createMeal, Prod.mk.injEq, Except.ok.injEq] at h
    exact h.1 ▸ rfl

theorem readMeals_ok_success (now tz : Int) (st : Store) (uid : Option String)
    (env : Envelope) (st' : Store)
    (h : readMeals now tz st uid = (.ok env, st')) : env.success = true := by
  simp only [readMeals, Prod.mk.injEq, Except.ok.injEq] at h
  exact h.1 ▸ rfl

theorem updateMeal_ok_success (now : Int) (st : Store) (mealId : Option Nat)
    (mdOpt : Option MealData) (env : Envelope) (st' : Store)
    (h : updateMeal now st mealId mdOpt = (.ok env, st')) : env.success = true := by
  cases mdOpt with
  | none => simp [updateMeal] at h
  | some md =>
    simp only [updateMeal] at h
    split at h
    · simp at h
    · simp only [Prod.mk.injEq, Except.ok.injEq] at h
      exact h.1 ▸ rfl

theorem deleteMeal_ok_success (st : Store) (mealId : Option Nat)
    (env : Envelope) (st' : Store)
    (h : deleteMeal st mealId = (.ok env, st')) : env.success = true := by
  simp only [deleteMeal] at h
  split at h
  · simp at h
  · simp only [Prod.mk.injEq, Except.ok.injEq] at h
    exact h.1 ▸ rfl

theorem getDailySummary_ok_success (now tz : Int) (st : Store) (uid : Option String)
    (env : Envelope) (st' : Store)
    (h : getDailySummary now tz st uid = (.ok env, st')) : env.success = true := by
  simp only [getDailySummary, Prod.mk.injEq, Except.ok.injEq] at h
  exact h.1 ▸ rfl

/-- C1 counterexample: `execute` has a `finally` but no `catch`, so the
not-found error thrown by `updateMeal` escapes the dispatch entry point as
a thrown fault instead of being returned as a `{success:false, data:...}`
envelope: an `update` of a nonexistent id on an empty store makes
`execute` itself end in a thrown error. -/
theorem claim1_counterexample :
    (execute (fun _ => none) 0 0 ⟨[], 0⟩
        ⟨"update", none, some 5, some ⟨none, none, none, none, none, none, none⟩⟩).1
      = .error "Refeição não encontrada" := rfl

/-- C1 (amended): thrown handler failures (the `NotFoundError` of
`update`/`delete`, a `TypeError` on missing `mealData`) are *not* caught
by `execute` and escape as thrown faults; the only failure converted to a
`{success:false, ...}` envelope is an unsupported `operation` value.
Consequently, whenever `execute` does return an envelope, that envelope
has `success = false` exactly when the operation was unsupported. -/
theorem claim1_envelope_success (parse : String → Option Int) (now tz : Int)
    (st : Store) (input : Input) (env : Envelope) (st' : Store)
    (h : execute parse now tz st input = (.ok env, st')) :
    env.success = false ↔ input.operation ∉ supportedOps := by
  unfold execute at h
  split at h
  · rename_i heq
    simp [createMeal_ok_success _ _ _ _ _ _ _ h, heq, supportedOps]
  · rename_i heq
    simp [readMeals_ok_success _ _ _ _ _ _ h, heq, supportedOps]
  · rename_i heq
    simp [updateMeal_ok_success _ _ _ _ _ _ h, heq, supportedOps]
  · rename_i heq
    simp [deleteMeal_ok_success _ _ _ _ h, heq, supportedOps]
  · rename_i heq
    simp [getDailySummary_ok_success _ _ _ _ _ _ h, heq, supportedOps]
  · rename_i h1 h2 h3 h4 h5
    simp only [Prod.mk.injEq, Except.ok.injEq] at h
    constructor
    · intro _
      simp [supportedOps]
      exact ⟨h1, h2, h3, h4, h5⟩
    · intro _
      exact h.1 ▸ rfl

theorem claim1_envelope_success_witness :
    ("frobnicate" : String) ∉ supportedOps :=
  (claim1_envelope_success (fun _ => none) 0 0 ⟨[], 0⟩
      ⟨"frobnicate", none, none, none⟩
      ⟨false, .errMsg "Operação não suportada"⟩ ⟨[], 0⟩ rfl).mp rfl

/-! ### Claims about `read` and `daily_summary` -/

/-- Fixture store holding only `docA` (whose date is local midnight of
day 0 at offset 0). -/
def stW : Store := ⟨[docA], 2⟩

/-- C3: `readMeals` returns exactly the records of the given user whose
date lies in `[local midnight, local midnight + 24h)`, in ascending date
order, as a success envelope (an empty match list is returned, not an
error); a record dated yesterday or tomorrow fails the range test and is
excluded. -/
theorem claim3_read_today (now tz : Int) (st : Store) (u : String) :
    ∃ meals : List MealDocument,
      readMeals now tz st (some u)
        = (.ok { success := true
                 data := .readData (meals.map toMealView) meals.length }, st)
      ∧ meals.Perm (st.docs.filter (todayFilter now tz (some u)))
      ∧ meals.Pairwise (fun a b => dateKey a ≤ dateKey b)
      ∧ (∀ d, d ∈ meals ↔ d ∈ st.docs ∧ d.userId = some u ∧
          ∃ t, d.date = some t ∧ startOfToday now tz ≤ t
            ∧ t < startOfToday now tz + dayMs) := by
  refine ⟨(st.docs.filter (todayFilter now tz (some u))).mergeSort mealLe,
    rfl, List.mergeSort_perm _ _, ?_, ?_⟩
  · have htrans : ∀ a b c : MealDocument, mealLe a b → mealLe b c → mealLe a c := by
      intro a b c hab hbc
      simp only [mealLe, decide_eq_true_eq] at hab hbc ⊢
      omega
    have htotal : ∀ a b : MealDocument, (mealLe a b || mealLe b a) = true := by
      intro a b
      simp only [mealLe, Bool.or_eq_true, decide_eq_true_eq]
      omega
    have h := List.sorted_mergeSort htrans htotal
      (st.docs.filter (todayFilter now tz (some u)))
    exact List.Pairwise.imp (fun hab => by simpa [mealLe] using hab) h
  · intro d
    rw [(List.mergeSort_perm (st.docs.filter (todayFilter now tz (some u))) mealLe).mem_iff,
      List.mem_filter]
    cases hdate : d.date with
    | none => simp [todayFilter, dateInRange, hdate]
    | some t => simp [todayFilter, dateInRange, hdate, and_assoc]

theorem claim3_witness :
    ∃ meals : List MealDocument,
      readMeals 0 0 stW (some "u1")
        = (.ok { success := true
                 data := .readData (meals.map toMealView) meals.length }, stW)
      ∧ meals.Perm (stW.docs.filter (todayFilter 0 0 (some "u1")))
      ∧ meals.Pairwise (fun a b => dateKey a ≤ dateKey b)
      ∧ (∀ d, d ∈ meals ↔ d ∈ stW.docs ∧ d.userId = some "u1" ∧
          ∃ t, d.date = some t ∧ startOfToday 0 0 ≤ t
            ∧ t < startOfToday 0 0 + dayMs) :=
  claim3_read_today 0 0 stW "u1"

/-- The reduce of `getDailySummary` computes the componentwise sums. -/
theorem foldl_addMeal (l : List MealDocument) (acc : SummaryTotals) :
    l.foldl addMeal acc =
      { totalCalories := acc.totalCalories + (l.map (fun d => d.calories.getD 0)).sum
        totalCarbs := acc.totalCarbs + (l.map (fun d => d.carbs.getD 0)).sum
        totalProtein := acc.totalProtein + (l.map (fun d => d.protein.getD 0)).sum
        totalFat := acc.totalFat + (l.map (fun d => d.fat.getD 0)).sum
        mealCount := acc.mealCount + l.length } := by
  induction l generalizing acc with
  | nil => cases acc; simp
  | cons d rest ih =>
    simp only [List.foldl_cons, ih, List.map_cons, List.sum_cons, List.length_cons,
      addMeal, SummaryTotals.mk.injEq]
    omega

/-- C4: the totals of `daily_summary` equal the sums of the corresponding
fields over the meal list returned in the same call (an absent macro
counting as 0), `mealCount` is the number of matching records, and with
zero matching meals the result is the all-zero summary in a success
envelope, not an error. -/
theorem claim4_daily_summary_totals (now tz : Int) (st : Store) (u : Option String) :
    ∃ (s : SummaryTotals) (meals : List MealDocument),
      getDailySummary now tz st u
        = (.ok { success := true
                 data := .summary (utcDayIndex (startOfToday now tz)) s
                          (meals.map toSummaryMealView) }, st)
      ∧ meals = st.docs.filter (todayFilter now tz u)
      ∧ s.totalCalories = ((meals.map toSummaryMealView).map (fun v => v.calories.getD 0)).sum
      ∧ s.totalCarbs = ((meals.map toSummaryMealView).map (fun v => v.carbs.getD 0)).sum
      ∧ s.totalProtein = ((meals.map toSummaryMealView).map (fun v => v.protein.getD 0)).sum
      ∧ s.totalFat = ((meals.map toSummaryMealView).map (fun v => v.fat.getD 0)).sum
      ∧ s.mealCount = meals.length
      ∧ (meals = [] → s = zeroTotals) := by
  refine ⟨(st.docs.filter (todayFilter now tz u)).foldl addMeal zeroTotals,
    st.docs.filter (todayFilter now tz u), rfl, rfl, ?_, ?_, ?_, ?_, ?_, ?_⟩
  · simp [foldl_addMeal, zeroTotals, toSummaryMealView, List.map_map, Function.comp_def]
  · simp [foldl_addMeal, zeroTotals, toSummaryMealView, List.map_map, Function.comp_def]
  · simp [foldl_addMeal, zeroTotals, toSummaryMealView, List.map_map, Function.comp_def]
  · simp [foldl_addMeal, zeroTotals, toSummaryMealView, List.map_map, Function.comp_def]
  · simp [foldl_addMeal, zeroTotals]
  · intro h
    simp [h]

theorem claim4_witness :
    ∃ (s : SummaryTotals) (meals : List MealDocument),
      getDailySummary 0 0 stW (some "u1")
        = (.ok { success := true
                 data := .summary (utcDayIndex (startOfToday 0 0)) s
                          (meals.map toSummaryMealView) }, stW)
      ∧ meals = stW.docs.filter (todayFilter 0 0 (some "u1"))
      ∧ s.totalCalories = ((meals.map toSummaryMealView).map (fun v => v.calories.getD 0)).sum
      ∧ s.totalCarbs = ((meals.map toSummaryMealView).map (fun v => v.carbs.getD 0)).sum
      ∧ s.totalProtein = ((meals.map toSummaryMealView).map (fun v => v.protein.getD 0)).sum
      ∧ s.totalFat = ((meals.map toSummaryMealView).map (fun v => v.fat.getD 0)).sum
      ∧ s.mealCount = meals.length
      ∧ (meals = [] → s = zeroTotals) :=
  claim4_daily_summary_totals 0 0 stW (some "u1")

/-- C10: the `date` label of `daily_summary` is the UTC calendar day of
the local-midnight instant (the prefix of `toISOString()` before `T`), so
at a fixed offset strictly ahead of UTC it names the calendar day *before*
the local day whose meals are summarised (`(now + tz) / dayMs` being the
local day number). -/
theorem claim10_summary_date_previous_day (now tz : Int) (st : Store)
    (u : Option String) (h1 : 0 < tz) (h2 : tz < dayMs) :
    ∃ s views, (getDailySummary now tz st u).1
        = .ok { success := true
                data := .summary (utcDayIndex (startOfToday now tz)) s views }
      ∧ utcDayIndex (startOfToday now tz) = (now + tz) / dayMs - 1 := by
  refine ⟨_, _, rfl, ?_⟩
  simp only [utcDayIndex, startOfToday, dayMs] at h2 ⊢
  omega

theorem claim10_witness :
    ∃ s views, (getDailySummary 1700000000000 36000000 stW (some "u1")).1
        = .ok { success := true
                data := .summary (utcDayIndex (startOfToday 1700000000000 36000000)) s views }
      ∧ utcDayIndex (startOfToday 1700000000000 36000000)
          = (1700000000000 + 36000000) / dayMs - 1 :=
  claim10_summary_date_previous_day 1700000000000 36000000 stW (some "u1")
    (by norm_num) (by norm_num [dayMs])

/-! ### Claims about `create` -/

/-- A concrete stand-in for JS date parsing used by the concrete
instances: it parses the one ISO datetime appearing in the fixtures and
rejects everything else as Invalid Date, as `new Date("garbage")` does. -/
def parseFixture : String → Option Int :=
  fun s => if s = "2025-08-27T08:30:00.000Z" then some 1756283400000 else none

/-- C7 counterexample: with a *nonempty but unparsable* `date` string the
stored `consumedAt` is Invalid Date (`none`), not the current time
(1000): the code's truthy test `mealData.date ? new Date(mealData.date) :
new Date()` falls back to the current time only for an absent (or empty)
string, never for an unparsable one. -/
theorem claim7_counterexample :
    ((createMeal parseFixture 1000 ⟨[], 0⟩ (some "u1")
        (some ⟨some "breakfast", some "eggs", some 300, none, none, none,
          some "garbage"⟩)).2.docs.map (fun d => d.date)) = [none]
    ∧ ((createMeal parseFixture 1000 ⟨[], 0⟩ (some "u1")
        (some ⟨some "breakfast", some "eggs", some 300, none, none, none,
          some "garbage"⟩)).2.docs.map (fun d => d.date)) ≠ [some 1000] := by
  decide

/-- C7 (amended): at creation `carbs`/`protein`/`fat` default to 0 when
absent; `consumedAt` defaults to the current time when the `date` input is
absent *or the empty string*, while a nonempty `date` string is handed to
the date parser and its result (possibly Invalid Date) is stored as is;
the returned payload is the full stored record including the generated
id. -/
theorem claim7_create_defaults (parse : String → Option Int) (now : Int)
    (st : Store) (uid : Option String) (md : MealData) :
    ∃ meal : MealDocument,
      createMeal parse now st uid (some md)
        = (.ok { success := true
                 data := .created "Refeição registrada com sucesso" st.nextId meal },
           { docs := st.docs ++ [meal], nextId := st.nextId + 1 })
      ∧ meal._id = st.nextId
      ∧ (md.carbs = none → meal.carbs = some 0)
      ∧ (md.protein = none → meal.protein = some 0)
      ∧ (md.fat = none → meal.fat = some 0)
      ∧ (md.date = none → meal.date = some now)
      ∧ (md.date = some "" → meal.date = some now)
      ∧ (∀ s, md.date = some s → s ≠ "" → meal.date = parse s) := by
  refine ⟨_, rfl, rfl, ?_, ?_, ?_, ?_, ?_, ?_⟩
  · intro h; simp [h]
  · intro h; simp [h]
  · intro h; simp [h]
  · intro h; simp [h]
  · intro h; simp [h]
  · intro s hs hne; simp [hs, hne]

theorem claim7_witness :
    ∃ meal : MealDocument,
      createMeal parseFixture 7 ⟨[], 3⟩ (some "u9")
          (some ⟨some "lunch", some "rice", some 450, none, none, none, none⟩)
        = (.ok { success := true
                 data := .created "Refeição registrada com sucesso" 3 meal },
           { docs := [] ++ [meal], nextId := 3 + 1 })
      ∧ meal._id = 3
      ∧ ((none : Option Int) = none → meal.carbs = some 0)
      ∧ ((none : Option Int) = none → meal.protein = some 0)
      ∧ ((none : Option Int) = none → meal.fat = some 0)
      ∧ ((none : Option String) = none → meal.date = some 7)
      ∧ ((none : Option String) = some "" → meal.date = some 7)
      ∧ (∀ s, (none : Option String) = some s → s ≠ "" → meal.date = parseFixture s) :=
  claim7_create_defaults parseFixture 7 ⟨[], 3⟩ (some "u9")
    ⟨some "lunch", some "rice", some 450, none, none, none, none⟩

/-- The schema-accepted `create` input that omits `userId` (the zod schema
marks `userId` optional even though the tool documentation requires it for
`create`). -/
def inputNoUser : Input :=
  ⟨"create", none, none,
   some ⟨some "lunch", some "rice", some 450, none, none, none, none⟩⟩

/-- C8: the claim says the stored `userId` is never null/absent after
creation for every input accepted by the dispatch entry point.  The
schema accepts a `create` without `userId` (`userId` is optional), the
non-null assertion `userId!` forwards the `undefined`, and the created
record is stored with no `userId`. -/
theorem claim8_userId_can_be_absent :
    schemaValid inputNoUser = true
    ∧ ((execute parseFixture 0 0 ⟨[], 0⟩ inputNoUser).2.docs.map
        (fun d => d.userId)) = [none] := by
  decide

end RegisterMeal
